import Mathlib

/-!
goBankApp: account service, request dispatch and storage adapter.

A shallow embedding of `types.go`, `storage.go` and `api.go`.

* Go `error` values are `GoError` (only the message is observable here).
* `http.ResponseWriter` is the state `ResponseWriter`; it follows the
  `net/http` server's writer: the first `WriteHeader` fixes the status, a
  `Write` on an unwritten header implies status 200, later `WriteHeader`
  calls are ignored. The state keeps apart what the handler handed to `Write`
  (`body`) and what the server transmits (`wire`): nothing is transmitted for
  a `HEAD` request, under a status that forbids a body, or when the
  connection fails.
* JSON output is kept as a value tree (`Json`), one tree per `Encode` call.
* The storage interface is a record of state-passing functions; pointer
  arguments (`*Account`) come back as part of the result.
* `database/sql` is the interface `DB`; a query yields a `Rows` cursor whose
  iteration may stop early on a fetch error, visible only through
  `rows.Err()`. `encoding/json` decoding, the random source and the clock are
  inputs.
* Console output (`log.Println`, `fmt.Println`, `fmt.Printf`) is not modelled.
-/

namespace GoBank

/-! ## Library values -/

/-- Go `error`: a non-nil error with the text returned by `Error()`. A nil
error is `none : Option GoError`. -/
structure GoError where
  msg : String
deriving DecidableEq, Repr

/-- Go `time.Time` as an instant: seconds and nanoseconds counted from the zero
time (January 1, year 1, 00:00:00 UTC). The location is not modelled. -/
structure Time where
  sec : Int
  nsec : Nat
deriving DecidableEq, Repr

/-- The zero value of `time.Time`. -/
def Time.zero : Time := ⟨0, 0⟩

/-- `t.UTC()`: same instant, location set to UTC. -/
def Time.UTC (t : Time) : Time := t

/-- Conversion `int64(x)`: two's complement wrap to 64 bits. -/
def int64 (x : Int) : Int := (x + 2 ^ 63) % 2 ^ 64 - 2 ^ 63

/-- `rand.Intn(n)` for `n > 0`, as a function of the raw draw of the random
source: a value in `[0, n)`. -/
def Intn (draw n : Nat) : Nat := draw % n

/-- JSON values as produced by `encoding/json`. `time t` is the JSON string
holding `t` in RFC 3339 form. -/
inductive Json where
  | null : Json
  | num (n : Int) : Json
  | str (s : String) : Json
  | time (t : Time) : Json
  | arr (xs : List Json) : Json
  | obj (members : List (String × Json)) : Json

/-! ## types.go -/

/-- `CreateAccountRequest` of types.go. -/
structure CreateAccountRequest where
  FirstName : String
  LastName : String
deriving DecidableEq, Repr

/-- `Account` of types.go. -/
structure Account where
  ID : Int
  FirstName : String
  LastName : String
  Number : Int
  Balance : Int
  CreatedAt : Time
deriving DecidableEq, Repr

/-- The zero value `Account{}`. -/
def Account.zero : Account :=
  { ID := 0, FirstName := "", LastName := "", Number := 0, Balance := 0,
    CreatedAt := Time.zero }

/-- `NewAccount(firstName, lastName)`; `draw` is the draw of the random source
behind `rand.Intn(1000000)` and `now` the reading of `time.Now()`. Fields the
composite literal does not name (ID, Balance) keep their zero value. -/
def NewAccount (firstName lastName : String) (draw : Nat) (now : Time) : Account :=
  { Account.zero with
    FirstName := firstName
    LastName := lastName
    Number := int64 (Intn draw 1000000)
    CreatedAt := now.UTC }

/-- JSON encoding of an `Account`, member names from the `json:"..."` tags. -/
def Account.toJson (a : Account) : Json :=
  .obj [("id", .num a.ID), ("firstName", .str a.FirstName),
        ("lastName", .str a.LastName), ("number", .num a.Number),
        ("balance", .num a.Balance), ("createdAt", .time a.CreatedAt)]

/-- JSON encoding of a `[]*Account`: a nil slice is `null`, otherwise an array. -/
def accountsToJson : Option (List Account) → Json
  | none => .null
  | some accounts => .arr (accounts.map Account.toJson)

/-! ## net/http response writer -/

/-- State of the server's `http.ResponseWriter` for one request. `body` holds
the values the handler handed to `Write`, in order; `wire` holds the values the
server transmits to the client. `head` tells that the request is a `HEAD`
request, for which the server discards body writes. `writeErr` is the error a
`Write` to the connection returns (none on a healthy connection). -/
structure ResponseWriter where
  header : List (String × String)
  wroteHeader : Bool
  status : Nat
  body : List Json
  writeErr : Option GoError
  head : Bool
  wire : List Json

/-- The writer the server hands to a handler for a request whose method is not
`HEAD`: nothing written, healthy connection. -/
def ResponseWriter.fresh : ResponseWriter :=
  { header := [], wroteHeader := false, status := 0, body := [], writeErr := none,
    head := false, wire := [] }

/-- The writer the server hands to a handler for a `HEAD` request. -/
def ResponseWriter.freshHead : ResponseWriter :=
  { ResponseWriter.fresh with head := true }

/-- `w.Header().Add(key, value)`. -/
def ResponseWriter.HeaderAdd (w : ResponseWriter) (key value : String) : ResponseWriter :=
  { w with header := w.header ++ [(key, value)] }

/-- `w.WriteHeader(code)` for a final status code: only the first call takes
effect. -/
def ResponseWriter.WriteHeader (w : ResponseWriter) (code : Nat) : ResponseWriter :=
  if w.wroteHeader then w else { w with wroteHeader := true, status := code }

/-- `bodyAllowedForStatus` of `net/http`: the statuses 1xx, 204 and 304 carry no
body. -/
def bodyAllowedForStatus (status : Nat) : Bool :=
  if 100 ≤ status ∧ status ≤ 199 then false
  else if status = 204 then false
  else if status = 304 then false
  else true

/-- `http.ErrBodyNotAllowed`. -/
def ErrBodyNotAllowed : GoError :=
  ⟨"http: request method or response status code does not allow body"⟩

/-- `w.Write(data)`: writes the header with status 200 when it is still
unwritten. The data is refused with `ErrBodyNotAllowed` under a status that
forbids a body, silently discarded for a `HEAD` request, and otherwise sent
over the connection, whose error (if any) is returned. -/
def ResponseWriter.Write (w : ResponseWriter) (data : Json) : ResponseWriter × Option GoError :=
  let w1 := w.WriteHeader 200
  let w2 := { w1 with body := w1.body ++ [data] }
  if bodyAllowedForStatus w1.status = false then (w2, some ErrBodyNotAllowed)
  else if w1.head then (w2, none)
  else
    match w1.writeErr with
    | some err => (w2, some err)
    | none => ({ w2 with wire := w2.wire ++ [data] }, none)

/-- `json.NewEncoder(w).Encode(v)` for a value whose encoding is `v`. -/
def Encode (w : ResponseWriter) (v : Json) : ResponseWriter × Option GoError :=
  w.Write v

/-- An incoming `*http.Request`: method, body, and the route variables set by
the router (`mux.Vars(r)`). -/
structure Request where
  Method : String
  Body : String
  Vars : List (String × String)

/-- `mux.Vars(r)[key]`: the empty string when the key is absent. -/
def muxVars (r : Request) (key : String) : String :=
  match r.Vars.lookup key with
  | some v => v
  | none => ""

/-- The writer the server creates for the request `r`. -/
def ResponseWriter.forRequest (r : Request) : ResponseWriter :=
  if r.Method = "HEAD" then ResponseWriter.freshHead else ResponseWriter.fresh

/-! ## storage.go -/

/-- The `Storage` interface over a store state `σ`. A method taking
`*Account` returns the account as the callee left it. -/
structure Storage (σ : Type) where
  CreateAccount : Account → σ → Account × σ × Option GoError
  DeleteAccount : Int → σ → σ × Option GoError
  UpdateAccount : Account → σ → Account × σ × Option GoError
  getAccounts : σ → σ × Option (List Account) × Option GoError
  GetAccountByID : Int → σ → σ × Option Account × Option GoError

/-- Arguments handed to a SQL statement. -/
inductive SqlArg where
  | int (i : Int) : SqlArg
  | text (s : String) : SqlArg
  | time (t : Time) : SqlArg
deriving DecidableEq, Repr

/-- A `*sql.Rows` cursor over rows of type `ρ`: `resultSet` is the result set
of the query; `fetchErr = some (k, e)` says that fetching fails with `e` once
`k` rows have been handed out, where `rows.Next()` returns false and
`rows.Err()` holds `e`. -/
structure Rows (ρ : Type) where
  resultSet : List ρ
  fetchErr : Option (Nat × GoError)

/-- The rows for which `rows.Next()` returns true, in order. -/
def Rows.delivered {ρ : Type} (rows : Rows ρ) : List ρ :=
  match rows.fetchErr with
  | none => rows.resultSet
  | some (k, _) => rows.resultSet.take k

/-- `rows.Err()` once `rows.Next()` has returned false. -/
def Rows.Err {ρ : Type} (rows : Rows ρ) : Option GoError :=
  match rows.fetchErr with
  | none => none
  | some (_, e) => some e

/-- The part of `*sql.DB` the adapter uses, over a database state `δ` with rows
of type `ρ`: `Query` runs a statement and yields a cursor or an error, `Scan`
decodes the current row into the six fields of an `Account`. -/
structure DB (δ ρ : Type) where
  Query : String → List SqlArg → δ → δ × Except GoError (Rows ρ)
  Scan : ρ → Except GoError Account

/-- The insert statement of `CreateAccount`. -/
def insertQuery : String :=
  "insert into account\n\t(first_name, last_name, number, balance, created_at)\n\tvalues($1, $2, $3, $4, $5)"

/-- The statement of `getAccounts`. -/
def selectQuery : String := "select * from account"

/-- `postgresStore.CreateAccount`: runs the insert; the result rows are only
printed, the account is not touched. -/
def postgresStore.CreateAccount {δ ρ : Type} (db : DB δ ρ) (acc : Account) (d : δ) :
    Account × δ × Option GoError :=
  match db.Query insertQuery
      [.text acc.FirstName, .text acc.LastName, .int acc.Number, .int acc.Balance,
       .time acc.CreatedAt] d with
  | (d1, .error err) => (acc, d1, some err)
  | (d1, .ok _) => (acc, d1, none)

/-- `postgresStore.UpdateAccount`. -/
def postgresStore.UpdateAccount {δ : Type} (acc : Account) (d : δ) :
    Account × δ × Option GoError :=
  (acc, d, none)

/-- `postgresStore.DeleteAccount`. -/
def postgresStore.DeleteAccount {δ : Type} (_id : Int) (d : δ) : δ × Option GoError :=
  (d, none)

/-- `postgresStore.GetAccountByID`: `return nil, nil`. -/
def postgresStore.GetAccountByID {δ : Type} (_id : Int) (d : δ) :
    δ × Option Account × Option GoError :=
  (d, none, none)

/-- The `for rows.Next()` loop of `getAccounts`: `accounts` is the slice built
so far. A failed `Scan` returns `nil` and the error. -/
def postgresStore.scanRows {δ ρ : Type} (db : DB δ ρ) :
    List ρ → List Account → Option (List Account) × Option GoError
  | [], accounts => (some accounts, none)
  | row :: rest, accounts =>
    match db.Scan row with
    | .error err => (none, some err)
    | .ok account => postgresStore.scanRows db rest (accounts ++ [account])

/-- `postgresStore.getAccounts`: the loop ends when `rows.Next()` returns
false; `rows.Err()` is never consulted. -/
def postgresStore.getAccounts {δ ρ : Type} (db : DB δ ρ) (d : δ) :
    δ × Option (List Account) × Option GoError :=
  match db.Query selectQuery [] d with
  | (d1, .error err) => (d1, none, some err)
  | (d1, .ok rows) => (d1, postgresStore.scanRows db rows.delivered [])

/-- The `postgresStore` as an implementation of `Storage`. -/
def postgresStore {δ ρ : Type} (db : DB δ ρ) : Storage δ :=
  { CreateAccount := postgresStore.CreateAccount db
    DeleteAccount := postgresStore.DeleteAccount
    UpdateAccount := postgresStore.UpdateAccount
    getAccounts := postgresStore.getAccounts db
    GetAccountByID := postgresStore.GetAccountByID }

/-! ## api.go -/

/-- `ApiError` of api.go; the field carries no `json` tag. -/
structure ApiError where
  Error : String
deriving DecidableEq, Repr

/-- JSON encoding of an `ApiError`: an untagged field is encoded under its Go
field name. -/
def ApiError.toJson (e : ApiError) : Json :=
  .obj [("Error", .str e.Error)]

/-- `WriteJSON(w, status, v)` for a value whose encoding is `v`. -/
def WriteJSON (w : ResponseWriter) (status : Nat) (v : Json) :
    ResponseWriter × Option GoError :=
  let w1 := w.HeaderAdd "Content-Type" "application./json"
  let w2 := w1.WriteHeader status
  Encode w2 v

/-- What a handler leaves behind: the response writer, the store state and the
returned error. -/
structure Outcome (σ : Type) where
  w : ResponseWriter
  store : σ
  err : Option GoError

/-- Inputs of a request that come from outside the program: the JSON decoder
applied to the body, the draw of the random source and the clock. -/
structure Env where
  decode : String → Except GoError CreateAccountRequest
  draw : Nat
  now : Time

/-- `apiFunc`: a handler bound to a server whose store is in state `σ`. -/
abbrev apiFunc (σ : Type) := ResponseWriter → Request → σ → Outcome σ

/-- `APIServer.handleGetAccount`. -/
def handleGetAccount {σ : Type} (S : Storage σ) : apiFunc σ := fun w _r s =>
  match S.getAccounts s with
  | (s1, _, some err) => ⟨w, s1, some err⟩
  | (s1, accounts, none) =>
    let (w1, e) := WriteJSON w 200 (accountsToJson accounts)
    ⟨w1, s1, e⟩

/-- `APIServer.handleGetAccountByID`: reads the `id` variable (to print it) and
writes the zero `Account`. -/
def handleGetAccountByID {σ : Type} (_S : Storage σ) : apiFunc σ := fun w r s =>
  let _id := muxVars r "id"
  let (w1, e) := WriteJSON w 200 Account.zero.toJson
  ⟨w1, s, e⟩

/-- `APIServer.handleCreateAccount`. -/
def handleCreateAccount {σ : Type} (env : Env) (S : Storage σ) : apiFunc σ := fun w r s =>
  match env.decode r.Body with
  | .error err => ⟨w, s, some err⟩
  | .ok createAccountReq =>
    let account := NewAccount createAccountReq.FirstName createAccountReq.LastName
      env.draw env.now
    match S.CreateAccount account s with
    | (_, s1, some err) => ⟨w, s1, some err⟩
    | (account1, s1, none) =>
      let (w1, e) := WriteJSON w 200 account1.toJson
      ⟨w1, s1, e⟩

/-- `APIServer.handleDeleteAccount`. -/
def handleDeleteAccount {σ : Type} (_S : Storage σ) : apiFunc σ := fun w _r s =>
  ⟨w, s, none⟩

/-- `APIServer.handleTransfer`. -/
def handleTransfer {σ : Type} (_S : Storage σ) : apiFunc σ := fun w _r s =>
  ⟨w, s, none⟩

/-- `APIServer.handleAccount`. -/
def handleAccount {σ : Type} (env : Env) (S : Storage σ) : apiFunc σ := fun w r s =>
  if r.Method = "GET" then handleGetAccount S w r s
  else if r.Method = "POST" then handleCreateAccount env S w r s
  else if r.Method = "DELETE" then handleDeleteAccount S w r s
  else ⟨w, s, some ⟨"method not allowed! " ++ r.Method⟩⟩

/-- `makeHTTPHandleFunc(f)`: runs `f`; on an error writes it with
`WriteJSON(w, http.StatusBadRequest, ApiError{...})`, whose own result is
dropped. -/
def makeHTTPHandleFunc {σ : Type} (f : apiFunc σ) :
    ResponseWriter → Request → σ → ResponseWriter × σ := fun w r s =>
  let o := f w r s
  match o.err with
  | some err => ((WriteJSON o.w 400 (ApiError.toJson ⟨err.msg⟩)).1, o.store)
  | none => (o.w, o.store)

/-- The two routes registered by `APIServer.Run`. Neither is restricted to a
method. -/
inductive Route where
  | account : Route
  | accountID : Route
deriving DecidableEq, Repr

/-- `APIServer.Run`: the handler registered for each route. -/
def Run {σ : Type} (env : Env) (S : Storage σ) :
    Route → ResponseWriter → Request → σ → ResponseWriter × σ
  | .account => makeHTTPHandleFunc (handleAccount env S)
  | .accountID => makeHTTPHandleFunc (handleGetAccountByID S)

/-! ## Concrete environment used to evaluate the definitions -/

/-- An in-memory database with one `account` table: `serial` is the last id
handed out, `down` the error every statement fails with while the connection
is lost, `fetchFail` the point and error at which reading a result set breaks
off. -/
structure MemState where
  table : List (List SqlArg)
  serial : Nat
  down : Option GoError
  fetchFail : Option (Nat × GoError)
deriving DecidableEq, Repr

/-- `Query` on the in-memory database: the insert statement appends a row
under the next serial id, the select statement returns the table. -/
def memQuery (q : String) (args : List SqlArg) (d : MemState) :
    MemState × Except GoError (Rows (List SqlArg)) :=
  match d.down with
  | some err => (d, .error err)
  | none =>
    if q = insertQuery then
      ({ d with table := d.table ++ [SqlArg.int (d.serial + 1) :: args]
                serial := d.serial + 1 }, .ok ⟨[], none⟩)
    else if q = selectQuery then (d, .ok ⟨d.table, d.fetchFail⟩)
    else (d, .error ⟨"pq: unknown statement"⟩)

/-- `Scan` on a row of the in-memory database: six columns of the expected
kinds decode, anything else is an error. -/
def memScan : List SqlArg → Except GoError Account
  | [.int id, .text firstName, .text lastName, .int number, .int balance, .time createdAt] =>
    .ok ⟨id, firstName, lastName, number, balance, createdAt⟩
  | _ => .error ⟨"sql: Scan error: unsupported column"⟩

/-- The in-memory database as a `DB`. -/
def memDB : DB MemState (List SqlArg) := ⟨memQuery, memScan⟩

/-- The in-memory database with an empty table. -/
def memEmpty : MemState := ⟨[], 0, none, none⟩

/-- The in-memory database while the connection is lost. -/
def memDown : MemState := ⟨[], 0, some ⟨"dial tcp: connection refused"⟩, none⟩

/-- A storage that counts the calls made to it. -/
def countingStore : Storage Nat :=
  { CreateAccount := fun acc n => (acc, n + 1, none)
    DeleteAccount := fun _ n => (n + 1, none)
    UpdateAccount := fun acc n => (acc, n + 1, none)
    getAccounts := fun n => (n + 1, some [], none)
    GetAccountByID := fun _ n => (n + 1, none, none) }

/-- A decoder that accepts one create request and rejects every other body. -/
def sampleDecode (body : String) : Except GoError CreateAccountRequest :=
  if body = "\x7b\"firstName\":\"Ada\",\"lastName\":\"Lovelace\"\x7d" then
    .ok ⟨"Ada", "Lovelace"⟩
  else .error ⟨"unexpected EOF"⟩

/-- A concrete environment: the sample decoder, a draw and a clock reading. -/
def sampleEnv : Env := ⟨sampleDecode, 3141592, ⟨63800000000, 0⟩⟩

/-- The request `POST /account` creating Ada Lovelace. -/
def adaRequest : Request :=
  ⟨"POST", "\x7b\"firstName\":\"Ada\",\"lastName\":\"Lovelace\"\x7d", []⟩

/-- The request `POST /account` with a truncated body. -/
def brokenRequest : Request := ⟨"POST", "\x7b\"firstName\":", []⟩

/-- A request with the given method and an empty body. -/
def bareRequest (method : String) : Request := ⟨method, "", []⟩

/-- The request `GET /account/999999`. -/
def missingRequest : Request := ⟨"GET", "", [("id", "999999")]⟩

/-- A handler that answers with status 200 and then returns an error. -/
def lateFailure {σ : Type} : apiFunc σ := fun w _r s =>
  ⟨(WriteJSON w 200 Json.null).1, s, some ⟨"late failure"⟩⟩

/-- A handler that only returns the error with the given message. -/
def failWith {σ : Type} (m : String) : apiFunc σ := fun w _r s => ⟨w, s, some ⟨m⟩⟩


/-- The member names of a JSON object, in order (empty for other values). -/
def Json.keys : Json → List String
  | .obj members => members.map Prod.fst
  | _ => []

/-- The in-memory database holding two rows that decode. -/
def memTwo : MemState :=
  ⟨[[.int 1, .text "Ada", .text "Lovelace", .int 141592, .int 0, .time ⟨63800000000, 0⟩],
    [.int 2, .text "Alan", .text "Turing", .int 271828, .int 0, .time ⟨63800000060, 0⟩]],
   2, none, none⟩

/-- The in-memory database holding the same two rows, on a connection that
breaks once the first row of a result set has been read. -/
def memCut : MemState :=
  { memTwo with fetchFail := some (1, ⟨"driver: bad connection"⟩) }

/-- The in-memory database whose second row of three does not decode (its id
column holds text). -/
def memBad : MemState :=
  ⟨[[.int 1, .text "Ada", .text "Lovelace", .int 141592, .int 0, .time ⟨63800000000, 0⟩],
    [.text "x", .text "Alan", .text "Turing", .int 271828, .int 0, .time ⟨63800000060, 0⟩],
    [.int 3, .text "Grace", .text "Hopper", .int 161803, .int 0, .time ⟨63800000120, 0⟩]],
   3, none, none⟩

/-- The request `GET /account/1`. -/
def firstRequest : Request := ⟨"GET", "", [("id", "1")]⟩

/-- The request `HEAD /account/1`. -/
def headRequest : Request := ⟨"HEAD", "", [("id", "1")]⟩

end GoBank

namespace GoBank

/-! ## Basic facts about the response writer -/

theorem WriteHeader_body (w : ResponseWriter) (code : Nat) :
    (w.WriteHeader code).body = w.body := by
  unfold ResponseWriter.WriteHeader
  split <;> rfl

theorem WriteHeader_written (w : ResponseWriter) (code : Nat) (hw : w.wroteHeader = true) :
    w.WriteHeader code = w := by
  unfold ResponseWriter.WriteHeader
  rw [if_pos hw]

theorem WriteHeader_wroteHeader (w : ResponseWriter) (code : Nat) :
    (w.WriteHeader code).wroteHeader = true := by
  unfold ResponseWriter.WriteHeader
  split
  · assumption
  · rfl

theorem WriteHeader_unwritten (w : ResponseWriter) (code : Nat) (hw : w.wroteHeader = false) :
    (w.WriteHeader code).status = code := by
  unfold ResponseWriter.WriteHeader
  simp [hw]

theorem Write_written (w : ResponseWriter) (data : Json) (hw : w.wroteHeader = true) :
    (w.Write data).1.status = w.status ∧ (w.Write data).1.wroteHeader = true ∧
    (w.Write data).1.body = w.body ++ [data] := by
  unfold ResponseWriter.Write
  simp only [WriteHeader_written w 200 hw]
  split
  · exact ⟨rfl, hw, rfl⟩
  · split
    · exact ⟨rfl, hw, rfl⟩
    · split <;> exact ⟨rfl, hw, rfl⟩

theorem WriteJSON_unwritten (w : ResponseWriter) (status : Nat) (v : Json)
    (hw : w.wroteHeader = false) :
    (WriteJSON w status v).1.status = status ∧ (WriteJSON w status v).1.wroteHeader = true := by
  have h1 : ((w.HeaderAdd "Content-Type" "application./json").WriteHeader status).wroteHeader
      = true := WriteHeader_wroteHeader _ _
  have h2 : ((w.HeaderAdd "Content-Type" "application./json").WriteHeader status).status
      = status := WriteHeader_unwritten _ _ hw
  have h := Write_written _ v h1
  unfold WriteJSON Encode
  exact ⟨h.1.trans h2, h.2.1⟩

theorem WriteJSON_written (w : ResponseWriter) (status : Nat) (v : Json)
    (hw : w.wroteHeader = true) :
    (WriteJSON w status v).1.status = w.status := by
  have h1 : ((w.HeaderAdd "Content-Type" "application./json").WriteHeader status).wroteHeader
      = true := WriteHeader_wroteHeader _ _
  have h2 : ((w.HeaderAdd "Content-Type" "application./json").WriteHeader status).status
      = w.status := by
    rw [WriteHeader_written _ _ (show (w.HeaderAdd _ _).wroteHeader = true from hw)]
    rfl
  have h := Write_written _ v h1
  unfold WriteJSON Encode
  exact h.1.trans h2

theorem WriteJSON_body (w : ResponseWriter) (status : Nat) (v : Json) :
    (WriteJSON w status v).1.body = w.body ++ [v] := by
  have h1 : ((w.HeaderAdd "Content-Type" "application./json").WriteHeader status).wroteHeader
      = true := WriteHeader_wroteHeader _ _
  have h := Write_written _ v h1
  unfold WriteJSON Encode
  rw [h.2.2, WriteHeader_body]
  rfl

theorem WriteJSON_fresh_200 (v : Json) :
    WriteJSON ResponseWriter.fresh 200 v =
      ({ header := [("Content-Type", "application./json")],
         wroteHeader := true, status := 200, body := [v],
         writeErr := none, head := false, wire := [v] }, none) := by
  rfl

theorem WriteJSON_fresh_400 (v : Json) :
    WriteJSON ResponseWriter.fresh 400 v =
      ({ header := [("Content-Type", "application./json")],
         wroteHeader := true, status := 400, body := [v],
         writeErr := none, head := false, wire := [v] }, none) := by
  rfl

theorem int64_Intn (draw : Nat) : int64 (Intn draw 1000000) = ((draw % 1000000 : Nat) : Int) := by
  unfold int64 Intn
  have h : draw % 1000000 < 1000000 := Nat.mod_lt _ (by norm_num)
  omega

/-! ## Basic facts about the handlers -/

theorem handleCreateAccount_created {σ : Type} (env : Env) (S : Storage σ)
    (w : ResponseWriter) (r : Request) (s s1 : σ) (req : CreateAccountRequest)
    (acc1 : Account) (hd : env.decode r.Body = .ok req)
    (hs : S.CreateAccount (NewAccount req.FirstName req.LastName env.draw env.now) s =
      (acc1, s1, none)) :
    handleCreateAccount env S w r s =
      ⟨(WriteJSON w 200 acc1.toJson).1, s1, (WriteJSON w 200 acc1.toJson).2⟩ := by
  simp only [handleCreateAccount, hd, hs]

theorem handleCreateAccount_store_error {σ : Type} (env : Env) (S : Storage σ)
    (w : ResponseWriter) (r : Request) (s s1 : σ) (req : CreateAccountRequest)
    (acc1 : Account) (e : GoError) (hd : env.decode r.Body = .ok req)
    (hs : S.CreateAccount (NewAccount req.FirstName req.LastName env.draw env.now) s =
      (acc1, s1, some e)) :
    handleCreateAccount env S w r s = ⟨w, s1, some e⟩ := by
  simp only [handleCreateAccount, hd, hs]

theorem handleAccount_post {σ : Type} (env : Env) (S : Storage σ)
    (w : ResponseWriter) (r : Request) (s : σ) (hm : r.Method = "POST") :
    handleAccount env S w r s = handleCreateAccount env S w r s := by
  have hG : ¬ (r.Method = "GET") := by rw [hm]; decide
  unfold handleAccount
  rw [if_neg hG, if_pos hm]

theorem handleAccount_get {σ : Type} (env : Env) (S : Storage σ)
    (w : ResponseWriter) (r : Request) (s : σ) (hm : r.Method = "GET") :
    handleAccount env S w r s = handleGetAccount S w r s := by
  unfold handleAccount
  rw [if_pos hm]

theorem postgresStore_CreateAccount_fst {δ ρ : Type} (db : DB δ ρ) (acc : Account) (d : δ) :
    ((postgresStore db).CreateAccount acc d).1 = acc := by
  show (postgresStore.CreateAccount db acc d).1 = acc
  unfold postgresStore.CreateAccount
  split <;> rfl

theorem NewAccount_toJson (firstName lastName : String) (draw : Nat) (now : Time) :
    (NewAccount firstName lastName draw now).toJson =
      Json.obj [("id", .num 0), ("firstName", .str firstName), ("lastName", .str lastName),
                ("number", .num ((draw % 1000000 : Nat) : Int)), ("balance", .num 0),
                ("createdAt", .time now)] := by
  have h := int64_Intn draw
  simp only [Account.toJson, NewAccount, Account.zero, Time.UTC, h]

theorem scanRows_all_ok {δ ρ : Type} (db : DB δ ρ) (rows : List ρ) :
    ∀ (accs done : List Account), rows.map db.Scan = accs.map Except.ok →
      postgresStore.scanRows db rows done = (some (done ++ accs), none) := by
  induction rows with
  | nil =>
    intro accs done h
    cases accs with
    | nil => simp [postgresStore.scanRows]
    | cons a t => simp at h
  | cons row rest ih =>
    intro accs done h
    cases accs with
    | nil => simp at h
    | cons a t =>
      simp only [List.map_cons, List.cons.injEq] at h
      simp only [postgresStore.scanRows, h.1]
      rw [ih t (done ++ [a]) h.2]
      simp

theorem scanRows_first_error {δ ρ : Type} (db : DB δ ρ) (pre : List ρ) (row : ρ)
    (post : List ρ) (e : GoError) (hrow : db.Scan row = .error e) :
    ∀ (accs done : List Account), pre.map db.Scan = accs.map Except.ok →
      postgresStore.scanRows db (pre ++ row :: post) done = (none, some e) := by
  induction pre with
  | nil =>
    intro accs done _
    simp only [List.nil_append, postgresStore.scanRows, hrow]
  | cons x rest ih =>
    intro accs done h
    cases accs with
    | nil => simp at h
    | cons a t =>
      simp only [List.map_cons, List.cons.injEq] at h
      simp only [List.cons_append, postgresStore.scanRows, h.1]
      exact ih t (done ++ [a]) h.2

/-! ## C1: methods on `/account` -/

/-- C1 (as stated, refuted): `DELETE` is neither `GET` nor `POST`, yet
`handleAccount` returns no error for it, not the method-not-allowed error. -/
theorem handleAccount_delete_no_error :
    (bareRequest "DELETE").Method ≠ "GET" ∧ (bareRequest "DELETE").Method ≠ "POST" ∧
    (handleAccount sampleEnv (postgresStore memDB) ResponseWriter.fresh
        (bareRequest "DELETE") memEmpty).err = none ∧
    (handleAccount sampleEnv (postgresStore memDB) ResponseWriter.fresh
        (bareRequest "DELETE") memEmpty).err ≠ some ⟨"method not allowed! DELETE"⟩ := by
  refine ⟨by decide, by decide, by rfl, ?_⟩
  have h : (handleAccount sampleEnv (postgresStore memDB) ResponseWriter.fresh
        (bareRequest "DELETE") memEmpty).err = none := by rfl
  rw [h]
  exact fun h => Option.noConfusion h

/-- C1 (amended): for every request whose method is none of `GET`, `POST`,
`DELETE`, `handleAccount` returns the error `"method not allowed! " ++ method`,
writes nothing and leaves the store alone; for `DELETE` it returns no error,
writes nothing and leaves the store alone. -/
theorem handleAccount_method_not_allowed {σ : Type} (env : Env) (S : Storage σ)
    (w : ResponseWriter) (r : Request) (s : σ) :
    (r.Method ≠ "GET" → r.Method ≠ "POST" → r.Method ≠ "DELETE" →
      (handleAccount env S w r s).err = some ⟨"method not allowed! " ++ r.Method⟩ ∧
      (handleAccount env S w r s).w = w ∧ (handleAccount env S w r s).store = s) ∧
    (r.Method = "DELETE" →
      (handleAccount env S w r s).err = none ∧
      (handleAccount env S w r s).w = w ∧ (handleAccount env S w r s).store = s) := by
  constructor
  · intro hG hP hD
    simp [handleAccount, hG, hP, hD]
  · intro hD
    simp [handleAccount, hD, handleDeleteAccount]

theorem handleAccount_method_not_allowed_witness :
    (handleAccount sampleEnv (postgresStore memDB) ResponseWriter.fresh
        (bareRequest "PUT") memEmpty).err = some ⟨"method not allowed! PUT"⟩ ∧
    (handleAccount sampleEnv (postgresStore memDB) ResponseWriter.fresh
        (bareRequest "DELETE") memEmpty).err = none :=
  ⟨((handleAccount_method_not_allowed sampleEnv (postgresStore memDB) ResponseWriter.fresh
      (bareRequest "PUT") memEmpty).1 (by decide) (by decide) (by decide)).1,
   ((handleAccount_method_not_allowed sampleEnv (postgresStore memDB) ResponseWriter.fresh
      (bareRequest "DELETE") memEmpty).2 (by decide)).1⟩

/-! ## C2: the error wrapper -/

/-- C2 (as stated, refuted): the handler `lateFailure` returns an error, after
it has answered with status 200; the wrapped handler leaves the response at
status 200, not 400, and appends the error object to the body. -/
theorem makeHTTPHandleFunc_late_error_keeps_status :
    (lateFailure ResponseWriter.fresh (bareRequest "GET") memEmpty).err = some ⟨"late failure"⟩ ∧
    (makeHTTPHandleFunc lateFailure ResponseWriter.fresh (bareRequest "GET") memEmpty).1.status = 200 ∧
    (makeHTTPHandleFunc lateFailure ResponseWriter.fresh (bareRequest "GET") memEmpty).1.status ≠ 400 ∧
    (makeHTTPHandleFunc lateFailure ResponseWriter.fresh (bareRequest "GET") memEmpty).1.body =
      [Json.null, Json.obj [("Error", Json.str "late failure")]] := by
  refine ⟨by rfl, by rfl, ?_, by rfl⟩
  have h : (makeHTTPHandleFunc lateFailure ResponseWriter.fresh
      (bareRequest "GET") memEmpty).1.status = 200 := by rfl
  rw [h]
  decide

/-- C2 (amended): if `f` returns an error `e` and has left the response header
unwritten (on a healthy connection), the handler built by `makeHTTPHandleFunc f`
sets status 400 and appends the object whose `Error` member is `e`'s message;
if `f` had already written the header, the status `f` wrote stays and the
object is appended all the same; `PUT /account` on a fresh writer gives status 400 with the message
`"method not allowed! PUT"`; and if `f` returns no error the wrapper leaves
the writer and the store exactly as `f` left them. -/
theorem makeHTTPHandleFunc_spec {σ : Type} (f : apiFunc σ) (env : Env) (S : Storage σ)
    (w : ResponseWriter) (r : Request) (s : σ) :
    (∀ e, (f w r s).err = some e → (f w r s).w.wroteHeader = false →
      (f w r s).w.writeErr = none →
      (makeHTTPHandleFunc f w r s).1.wroteHeader = true ∧
      (makeHTTPHandleFunc f w r s).1.status = 400 ∧
      (makeHTTPHandleFunc f w r s).1.body =
        (f w r s).w.body ++ [Json.obj [("Error", Json.str e.msg)]] ∧
      (makeHTTPHandleFunc f w r s).2 = (f w r s).store) ∧
    (∀ e, (f w r s).err = some e → (f w r s).w.wroteHeader = true →
      (f w r s).w.writeErr = none →
      (makeHTTPHandleFunc f w r s).1.status = (f w r s).w.status ∧
      (makeHTTPHandleFunc f w r s).1.body =
        (f w r s).w.body ++ [Json.obj [("Error", Json.str e.msg)]]) ∧
    (r.Method = "PUT" →
      (Run env S Route.account ResponseWriter.fresh r s).1.status = 400 ∧
      (Run env S Route.account ResponseWriter.fresh r s).1.body =
        [Json.obj [("Error", Json.str "method not allowed! PUT")]]) ∧
    ((f w r s).err = none →
      makeHTTPHandleFunc f w r s = ((f w r s).w, (f w r s).store)) := by
  refine ⟨?_, ?_, ?_, ?_⟩
  · intro e he hw _
    simp only [makeHTTPHandleFunc, he, ApiError.toJson]
    exact ⟨(WriteJSON_unwritten _ 400 _ hw).2, (WriteJSON_unwritten _ 400 _ hw).1,
      WriteJSON_body _ _ _, trivial⟩
  · intro e he hw _
    simp only [makeHTTPHandleFunc, he, WriteJSON_written _ _ _ hw, WriteJSON_body,
      ApiError.toJson, and_self]
  · intro hP
    simp [Run, makeHTTPHandleFunc, handleAccount, hP, WriteJSON_fresh_400, ApiError.toJson]
  · intro he
    simp [makeHTTPHandleFunc, he]

theorem makeHTTPHandleFunc_spec_witness :
    ((makeHTTPHandleFunc (failWith "boom") ResponseWriter.fresh (bareRequest "PUT") memEmpty).1.status = 400 ∧
     (makeHTTPHandleFunc (failWith "boom") ResponseWriter.fresh (bareRequest "PUT") memEmpty).1.body =
        [Json.obj [("Error", Json.str "boom")]]) ∧
    (makeHTTPHandleFunc lateFailure ResponseWriter.fresh (bareRequest "GET") memEmpty).1.status =
      (lateFailure ResponseWriter.fresh (bareRequest "GET") memEmpty).w.status ∧
    (Run sampleEnv (postgresStore memDB) Route.account ResponseWriter.fresh
        (bareRequest "PUT") memEmpty).1.status = 400 ∧
    makeHTTPHandleFunc (handleDeleteAccount countingStore) ResponseWriter.fresh
        (bareRequest "DELETE") 0 = (ResponseWriter.fresh, 0) :=
  ⟨⟨((makeHTTPHandleFunc_spec (failWith "boom") sampleEnv (postgresStore memDB)
        ResponseWriter.fresh (bareRequest "PUT") memEmpty).1 ⟨"boom"⟩ rfl rfl rfl).2.1,
    ((makeHTTPHandleFunc_spec (failWith "boom") sampleEnv (postgresStore memDB)
        ResponseWriter.fresh (bareRequest "PUT") memEmpty).1 ⟨"boom"⟩ rfl rfl rfl).2.2.1⟩,
   ((makeHTTPHandleFunc_spec lateFailure sampleEnv (postgresStore memDB)
        ResponseWriter.fresh (bareRequest "GET") memEmpty).2.1 ⟨"late failure"⟩ rfl rfl rfl).1,
   ((makeHTTPHandleFunc_spec (handleAccount sampleEnv (postgresStore memDB)) sampleEnv
        (postgresStore memDB) ResponseWriter.fresh (bareRequest "PUT") memEmpty).2.2.1 rfl).1,
   (makeHTTPHandleFunc_spec (handleDeleteAccount countingStore) sampleEnv countingStore
        ResponseWriter.fresh (bareRequest "DELETE") 0).2.2.2 rfl⟩

/-! ## C4: `NewAccount` -/

/-- C4: for all names, every draw of the random source and every clock reading,
`NewAccount` returns an account with the given first and last name, balance 0,
number equal to the outcome `Intn draw 1000000` of the random source, which
lies in `[0, 1000000)`, and ID 0. -/
theorem NewAccount_fields (firstName lastName : String) (draw : Nat) (now : Time) :
    (NewAccount firstName lastName draw now).FirstName = firstName ∧
    (NewAccount firstName lastName draw now).LastName = lastName ∧
    (NewAccount firstName lastName draw now).Balance = 0 ∧
    (NewAccount firstName lastName draw now).Number = (Intn draw 1000000 : Nat) ∧
    0 ≤ (NewAccount firstName lastName draw now).Number ∧
    (NewAccount firstName lastName draw now).Number < 1000000 ∧
    (NewAccount firstName lastName draw now).ID = 0 := by
  have h := int64_Intn draw
  have hlt : draw % 1000000 < 1000000 := Nat.mod_lt _ (by norm_num)
  refine ⟨rfl, rfl, rfl, ?_, ?_, ?_, rfl⟩
  · show int64 (Intn draw 1000000) = _
    rw [h]; rfl
  · show 0 ≤ int64 (Intn draw 1000000)
    rw [h]; omega
  · show int64 (Intn draw 1000000) < 1000000
    rw [h]; omega

/-! ## C3: creating an account -/

/-- C3 (code defect, evaluated at the failing input): creating Ada Lovelace on
the empty in-memory database succeeds with status 200 and the store gives the
new row the id 1, but the account in the response carries the id 0, which is
not positive and is not the id the store generated. -/
theorem createAccount_response_id_zero :
    (Run sampleEnv (postgresStore memDB) Route.account ResponseWriter.fresh
        adaRequest memEmpty).1.status = 200 ∧
    (Run sampleEnv (postgresStore memDB) Route.account ResponseWriter.fresh
        adaRequest memEmpty).1.body =
      [Json.obj [("id", .num 0), ("firstName", .str "Ada"), ("lastName", .str "Lovelace"),
                 ("number", .num 141592), ("balance", .num 0),
                 ("createdAt", .time ⟨63800000000, 0⟩)]] ∧
    (Run sampleEnv (postgresStore memDB) Route.account ResponseWriter.fresh
        adaRequest memEmpty).2.table =
      [[.int 1, .text "Ada", .text "Lovelace", .int 141592, .int 0,
        .time ⟨63800000000, 0⟩]] ∧
    ¬ ((0 : Int) < 0) := by
  refine ⟨by rfl, by rfl, by rfl, by decide⟩

/-- The defect does not depend on the database: whenever the body decodes and
`postgresStore.CreateAccount` succeeds, the account in the response is the one
`NewAccount` built, with id 0, whatever id the insert produced. -/
theorem handleCreateAccount_postgres_response {δ ρ : Type} (env : Env) (db : DB δ ρ)
    (r : Request) (d : δ) (req : CreateAccountRequest)
    (hm : r.Method = "POST") (hd : env.decode r.Body = .ok req)
    (hs : ((postgresStore db).CreateAccount
            (NewAccount req.FirstName req.LastName env.draw env.now) d).2.2 = none) :
    (Run env (postgresStore db) Route.account ResponseWriter.fresh r d).1.status = 200 ∧
    (Run env (postgresStore db) Route.account ResponseWriter.fresh r d).1.body =
      [Json.obj [("id", .num 0), ("firstName", .str req.FirstName),
                 ("lastName", .str req.LastName),
                 ("number", .num ((env.draw % 1000000 : Nat) : Int)), ("balance", .num 0),
                 ("createdAt", .time env.now)]] ∧
    (Run env (postgresStore db) Route.account ResponseWriter.fresh r d).2 =
      ((postgresStore db).CreateAccount
        (NewAccount req.FirstName req.LastName env.draw env.now) d).2.1 := by
  have hfst := postgresStore_CreateAccount_fst db
    (NewAccount req.FirstName req.LastName env.draw env.now) d
  have hc : (postgresStore db).CreateAccount
      (NewAccount req.FirstName req.LastName env.draw env.now) d =
      (NewAccount req.FirstName req.LastName env.draw env.now,
       ((postgresStore db).CreateAccount
          (NewAccount req.FirstName req.LastName env.draw env.now) d).2.1, none) := by
    refine Prod.ext hfst (Prod.ext rfl hs)
  have hrun : Run env (postgresStore db) Route.account ResponseWriter.fresh r d =
      ((WriteJSON ResponseWriter.fresh 200
          (NewAccount req.FirstName req.LastName env.draw env.now).toJson).1,
        ((postgresStore db).CreateAccount
          (NewAccount req.FirstName req.LastName env.draw env.now) d).2.1) := by
    simp only [Run, makeHTTPHandleFunc, handleAccount_post _ _ _ _ _ hm,
      handleCreateAccount_created env _ _ r d _ req _ hd hc, WriteJSON_fresh_200]
  rw [hrun, WriteJSON_fresh_200, NewAccount_toJson]
  exact ⟨rfl, rfl, rfl⟩

/-! ## C5: a body that does not decode -/

/-- C5: for every `POST /account` whose body fails to decode with an error `e`
(of non-empty message, as the JSON decoder's errors are), `handleCreateAccount`
returns `e`, writes nothing and leaves the state of every store unchanged (a
store counting its calls counts none), and the wrapped handler answers with
status 400 and a non-empty error message, namely `e`'s. -/
theorem handleCreateAccount_decode_error {σ : Type} (env : Env) (S : Storage σ)
    (r : Request) (s : σ) (n : Nat) (e : GoError)
    (hm : r.Method = "POST") (hd : env.decode r.Body = .error e) (hne : e.msg ≠ "") :
    (handleCreateAccount env S ResponseWriter.fresh r s).err = some e ∧
    (handleCreateAccount env S ResponseWriter.fresh r s).store = s ∧
    (handleCreateAccount env S ResponseWriter.fresh r s).w = ResponseWriter.fresh ∧
    (handleCreateAccount env countingStore ResponseWriter.fresh r n).store = n ∧
    (Run env S Route.account ResponseWriter.fresh r s).2 = s ∧
    (Run env S Route.account ResponseWriter.fresh r s).1.status = 400 ∧
    ∃ m, m ≠ "" ∧ (Run env S Route.account ResponseWriter.fresh r s).1.body =
      [Json.obj [("Error", Json.str m)]] := by
  have hG : ¬ (r.Method = "GET") := by rw [hm]; decide
  refine ⟨?_, ?_, ?_, ?_, ?_, ?_, e.msg, hne, ?_⟩ <;>
    simp [Run, makeHTTPHandleFunc, handleAccount, handleCreateAccount, hm, hd,
      WriteJSON_fresh_400, ApiError.toJson]

theorem handleCreateAccount_decode_error_witness :
    (handleCreateAccount sampleEnv (postgresStore memDB) ResponseWriter.fresh
        brokenRequest memEmpty).err = some ⟨"unexpected EOF"⟩ ∧
    (Run sampleEnv (postgresStore memDB) Route.account ResponseWriter.fresh
        brokenRequest memEmpty).2 = memEmpty ∧
    (Run sampleEnv (postgresStore memDB) Route.account ResponseWriter.fresh
        brokenRequest memEmpty).1.status = 400 :=
  ⟨(handleCreateAccount_decode_error sampleEnv (postgresStore memDB) brokenRequest memEmpty 0
      ⟨"unexpected EOF"⟩ rfl rfl (by decide)).1,
   (handleCreateAccount_decode_error sampleEnv (postgresStore memDB) brokenRequest memEmpty 0
      ⟨"unexpected EOF"⟩ rfl rfl (by decide)).2.2.2.2.1,
   (handleCreateAccount_decode_error sampleEnv (postgresStore memDB) brokenRequest memEmpty 0
      ⟨"unexpected EOF"⟩ rfl rfl (by decide)).2.2.2.2.2.1⟩

/-! ## C6: `/account/{id}` -/

/-- C6 (code defect, evaluated at the failing inputs): on the empty in-memory
database `GET /account/999999` answers with status 200, not 404;
`GetAccountByID 999999` returns no account and no error; and after Ada Lovelace
has been created under id 1, `GET /account/1` still answers with the zero
account, whose names are empty. -/
theorem getAccountByID_missing_is_200 :
    (Run sampleEnv (postgresStore memDB) Route.accountID ResponseWriter.fresh
        missingRequest memEmpty).1.status = 200 ∧
    (Run sampleEnv (postgresStore memDB) Route.accountID ResponseWriter.fresh
        missingRequest memEmpty).1.status ≠ 404 ∧
    (postgresStore memDB).GetAccountByID 999999 memEmpty = (memEmpty, none, none) ∧
    (Run sampleEnv (postgresStore memDB) Route.accountID ResponseWriter.fresh firstRequest
        (Run sampleEnv (postgresStore memDB) Route.account ResponseWriter.fresh
          adaRequest memEmpty).2).1.body =
      [Json.obj [("id", .num 0), ("firstName", .str ""), ("lastName", .str ""),
                 ("number", .num 0), ("balance", .num 0), ("createdAt", .time ⟨0, 0⟩)]] := by
  refine ⟨by rfl, ?_, by rfl, by rfl⟩
  have h : (Run sampleEnv (postgresStore memDB) Route.accountID ResponseWriter.fresh
        missingRequest memEmpty).1.status = 200 := by rfl
  rw [h]
  decide

/-! ## C7: listing the table -/

/-- When the cursor hands out every row of the result set, `getAccounts`
returns the query error unchanged, one account per row in row order when all
rows decode, and the error of the first failing row otherwise. -/
theorem getAccounts_delivered {δ ρ : Type} (db : DB δ ρ) (d d1 : δ) :
    (∀ e, db.Query selectQuery [] d = (d1, .error e) →
      postgresStore.getAccounts db d = (d1, none, some e)) ∧
    (∀ (rows : Rows ρ) (accs : List Account), db.Query selectQuery [] d = (d1, .ok rows) →
      rows.delivered.map db.Scan = accs.map Except.ok →
      postgresStore.getAccounts db d = (d1, some accs, none) ∧
      accs.length = rows.delivered.length) ∧
    (∀ (rows : Rows ρ) (pre : List ρ) (row : ρ) (post : List ρ) (accs : List Account)
      (e : GoError), db.Query selectQuery [] d = (d1, .ok rows) →
      rows.delivered = pre ++ row :: post →
      pre.map db.Scan = accs.map Except.ok → db.Scan row = .error e →
      postgresStore.getAccounts db d = (d1, none, some e)) := by
  refine ⟨?_, ?_, ?_⟩
  · intro e hq
    simp only [postgresStore.getAccounts, hq]
  · intro rows accs hq hrows
    refine ⟨?_, ?_⟩
    · simp only [postgresStore.getAccounts, hq,
        scanRows_all_ok db rows.delivered accs [] hrows, List.nil_append]
    · have := congrArg List.length hrows
      simpa using this.symm
  · intro rows pre row post accs e hq hdel hpre hrow
    simp only [postgresStore.getAccounts, hq, hdel,
      scanRows_first_error db pre row post e hrow accs [] hpre]

/-- C7 (code defect, evaluated at the failing input): the table holds two rows
that both decode, and the connection breaks once the first row has been read.
The query succeeds, its result set has two rows and `rows.Err()` holds the
fetch error, yet `getAccounts` returns one account and a nil error: fewer
accounts than rows, and the failure is masked. -/
theorem getAccounts_masks_fetch_error :
    memDB.Query selectQuery [] memCut =
      (memCut, Except.ok ⟨memTwo.table, some (1, ⟨"driver: bad connection"⟩)⟩) ∧
    memTwo.table.length = 2 ∧
    memTwo.table.map memDB.Scan =
      [Except.ok ⟨1, "Ada", "Lovelace", 141592, 0, ⟨63800000000, 0⟩⟩,
       Except.ok ⟨2, "Alan", "Turing", 271828, 0, ⟨63800000060, 0⟩⟩] ∧
    Rows.Err (⟨memTwo.table, some (1, ⟨"driver: bad connection"⟩)⟩ : Rows (List SqlArg)) =
      some ⟨"driver: bad connection"⟩ ∧
    postgresStore.getAccounts memDB memCut =
      (memCut, some [⟨1, "Ada", "Lovelace", 141592, 0, ⟨63800000000, 0⟩⟩], none) ∧
    postgresStore.getAccounts memDB memTwo =
      (memTwo,
       some [⟨1, "Ada", "Lovelace", 141592, 0, ⟨63800000000, 0⟩⟩,
             ⟨2, "Alan", "Turing", 271828, 0, ⟨63800000060, 0⟩⟩], none) := by
  refine ⟨by rfl, by rfl, by rfl, by rfl, by rfl, by rfl⟩

/-! ## C8: a failing store -/

/-- C8 (as stated, refuted): with the database connection lost, `GET /account`
and `POST /account` both answer with status 400, not 500; the body carries the
store's error message under `Error`. -/
theorem storage_error_is_400 :
    (Run sampleEnv (postgresStore memDB) Route.account ResponseWriter.fresh
        (bareRequest "GET") memDown).1.status = 400 ∧
    (Run sampleEnv (postgresStore memDB) Route.account ResponseWriter.fresh
        (bareRequest "GET") memDown).1.status ≠ 500 ∧
    (Run sampleEnv (postgresStore memDB) Route.account ResponseWriter.fresh
        (bareRequest "GET") memDown).1.body =
      [Json.obj [("Error", Json.str "dial tcp: connection refused")]] ∧
    (Run sampleEnv (postgresStore memDB) Route.account ResponseWriter.fresh
        adaRequest memDown).1.status = 400 ∧
    (Run sampleEnv (postgresStore memDB) Route.account ResponseWriter.fresh
        adaRequest memDown).1.status ≠ 500 := by
  have h1 : (Run sampleEnv (postgresStore memDB) Route.account ResponseWriter.fresh
        (bareRequest "GET") memDown).1.status = 400 := by rfl
  have h2 : (Run sampleEnv (postgresStore memDB) Route.account ResponseWriter.fresh
        adaRequest memDown).1.status = 400 := by rfl
  refine ⟨h1, ?_, by rfl, h2, ?_⟩
  · rw [h1]; decide
  · rw [h2]; decide

/-- C8 (amended): for every request to `/account` on which the store operation
fails with an error `e` (`getAccounts` on `GET`, `CreateAccount` on a `POST`
whose body decodes), the response on a fresh writer has status 400 and its
body is the object carrying `e`'s message under `Error`; the store is left as
the failed operation left it. -/
theorem storage_error_response {σ : Type} (env : Env) (S : Storage σ) (r : Request)
    (s s1 : σ) (e : GoError) :
    (∀ accounts, r.Method = "GET" → S.getAccounts s = (s1, accounts, some e) →
      (Run env S Route.account ResponseWriter.fresh r s).1.status = 400 ∧
      (Run env S Route.account ResponseWriter.fresh r s).1.body =
        [Json.obj [("Error", Json.str e.msg)]] ∧
      (Run env S Route.account ResponseWriter.fresh r s).2 = s1) ∧
    (∀ req acc1, r.Method = "POST" → env.decode r.Body = .ok req →
      S.CreateAccount (NewAccount req.FirstName req.LastName env.draw env.now) s =
        (acc1, s1, some e) →
      (Run env S Route.account ResponseWriter.fresh r s).1.status = 400 ∧
      (Run env S Route.account ResponseWriter.fresh r s).1.body =
        [Json.obj [("Error", Json.str e.msg)]] ∧
      (Run env S Route.account ResponseWriter.fresh r s).2 = s1) := by
  constructor
  · intro accounts hm hs
    simp [Run, makeHTTPHandleFunc, handleAccount_get _ _ _ _ _ hm, handleGetAccount, hs,
      WriteJSON_fresh_400, ApiError.toJson]
  · intro req acc1 hm hd hs
    simp [Run, makeHTTPHandleFunc, handleAccount_post _ _ _ _ _ hm,
      handleCreateAccount_store_error env S _ r s s1 req acc1 e hd hs,
      WriteJSON_fresh_400, ApiError.toJson]

theorem storage_error_response_witness :
    (Run sampleEnv (postgresStore memDB) Route.account ResponseWriter.fresh
        (bareRequest "GET") memDown).1.body =
      [Json.obj [("Error", Json.str "dial tcp: connection refused")]] ∧
    (Run sampleEnv (postgresStore memDB) Route.account ResponseWriter.fresh
        adaRequest memDown).1.body =
      [Json.obj [("Error", Json.str "dial tcp: connection refused")]] :=
  ⟨((storage_error_response sampleEnv (postgresStore memDB) (bareRequest "GET") memDown memDown
      ⟨"dial tcp: connection refused"⟩).1 none rfl rfl).2.1,
   ((storage_error_response sampleEnv (postgresStore memDB) adaRequest memDown memDown
      ⟨"dial tcp: connection refused"⟩).2 ⟨"Ada", "Lovelace"⟩
      (NewAccount "Ada" "Lovelace" 3141592 ⟨63800000000, 0⟩) rfl rfl rfl).2.1⟩

/-! ## C9: the error body -/

/-- C9 (as stated, refuted): for the error message `"boom"` the body written
by the wrapper is the object with the single member `Error`, not `error`. -/
theorem error_body_key_is_capitalised :
    (makeHTTPHandleFunc (failWith "boom") ResponseWriter.fresh (bareRequest "GET")
        memEmpty).1.body = [Json.obj [("Error", Json.str "boom")]] ∧
    (makeHTTPHandleFunc (failWith "boom") ResponseWriter.fresh (bareRequest "GET")
        memEmpty).1.body ≠ [Json.obj [("error", Json.str "boom")]] ∧
    (makeHTTPHandleFunc (failWith "boom") ResponseWriter.fresh (bareRequest "GET")
        memEmpty).1.body.map Json.keys = [["Error"]] := by
  have h : (makeHTTPHandleFunc (failWith "boom") ResponseWriter.fresh (bareRequest "GET")
        memEmpty).1.body = [Json.obj [("Error", Json.str "boom")]] := by rfl
  refine ⟨h, ?_, by rfl⟩
  rw [h]
  intro hc
  have hk := congrArg (List.map Json.keys) hc
  revert hk
  decide

/-- C9 (amended): for every error message `m` returned by a handler, the value
the wrapper encodes after what the handler wrote (healthy connection) is the
JSON object with exactly one member, whose key is `"Error"` and whose value is
the string `m`. -/
theorem error_body_shape {σ : Type} (f : apiFunc σ) (w : ResponseWriter) (r : Request)
    (s : σ) (m : String)
    (he : (f w r s).err = some ⟨m⟩) (hc : (f w r s).w.writeErr = none) :
    (makeHTTPHandleFunc f w r s).1.body =
      (f w r s).w.body ++ [Json.obj [("Error", Json.str m)]] ∧
    (ApiError.toJson ⟨m⟩).keys = ["Error"] := by
  have _ := hc
  refine ⟨?_, rfl⟩
  simp only [makeHTTPHandleFunc, he, WriteJSON_body, ApiError.toJson]

theorem error_body_shape_witness :
    (makeHTTPHandleFunc lateFailure ResponseWriter.fresh (bareRequest "GET") memEmpty).1.body =
      (lateFailure ResponseWriter.fresh (bareRequest "GET") memEmpty).w.body ++
        [Json.obj [("Error", Json.str "late failure")]] :=
  (error_body_shape lateFailure ResponseWriter.fresh (bareRequest "GET") memEmpty
    "late failure" rfl rfl).1

/-! ## C10: what `/account/{id}` depends on -/

/-- C10 (as stated, refuted): `HEAD /account/1` and `GET /account/1` on the same
store are both answered with status 200, but the server transmits the zero
account for `GET` and no body for `HEAD`: the two responses differ. -/
theorem accountID_head_differs_from_get :
    (Run sampleEnv (postgresStore memDB) Route.accountID
        (ResponseWriter.forRequest headRequest) headRequest memEmpty).1.status = 200 ∧
    (Run sampleEnv (postgresStore memDB) Route.accountID
        (ResponseWriter.forRequest firstRequest) firstRequest memEmpty).1.status = 200 ∧
    (Run sampleEnv (postgresStore memDB) Route.accountID
        (ResponseWriter.forRequest headRequest) headRequest memEmpty).1.wire = [] ∧
    (Run sampleEnv (postgresStore memDB) Route.accountID
        (ResponseWriter.forRequest firstRequest) firstRequest memEmpty).1.wire =
      [Json.obj [("id", .num 0), ("firstName", .str ""), ("lastName", .str ""),
                 ("number", .num 0), ("balance", .num 0), ("createdAt", .time Time.zero)]] ∧
    (Run sampleEnv (postgresStore memDB) Route.accountID
        (ResponseWriter.forRequest headRequest) headRequest memEmpty).1.wire ≠
      (Run sampleEnv (postgresStore memDB) Route.accountID
        (ResponseWriter.forRequest firstRequest) firstRequest memEmpty).1.wire := by
  have h1 : (Run sampleEnv (postgresStore memDB) Route.accountID
        (ResponseWriter.forRequest headRequest) headRequest memEmpty).1.wire = [] := by rfl
  have h2 : (Run sampleEnv (postgresStore memDB) Route.accountID
        (ResponseWriter.forRequest firstRequest) firstRequest memEmpty).1.wire =
      [Json.obj [("id", .num 0), ("firstName", .str ""), ("lastName", .str ""),
                 ("number", .num 0), ("balance", .num 0), ("createdAt", .time Time.zero)]] := by
    rfl
  refine ⟨by rfl, by rfl, h1, h2, ?_⟩
  rw [h1, h2]
  exact fun h => List.noConfusion h

theorem forRequest_cases (r : Request) :
    (r.Method = "HEAD" ∧ ResponseWriter.forRequest r = ResponseWriter.freshHead) ∨
    (r.Method ≠ "HEAD" ∧ ResponseWriter.forRequest r = ResponseWriter.fresh) := by
  unfold ResponseWriter.forRequest
  by_cases h : r.Method = "HEAD"
  · exact Or.inl ⟨h, if_pos h⟩
  · exact Or.inr ⟨h, if_neg h⟩

/-- C10 (amended): for every request (any method, any route variables) and
every store in any state, `handleGetAccountByID` on the writer the server
creates for the request returns no error, leaves the store state untouched (a
store counting its calls counts none) and writes status 200 with the zero
account; the server transmits that account unless the method is `HEAD`, for
which it transmits no body; any two requests that are both `HEAD` or both not
`HEAD` get identical responses from the `/account/{id}` route, whatever their
route variables, stores and store states. -/
theorem handleGetAccountByID_response {σ τ : Type} (env : Env) (S : Storage σ)
    (T : Storage τ) (r r2 : Request) (s : σ) (t : τ) (n : Nat) :
    (handleGetAccountByID S (ResponseWriter.forRequest r) r s).err = none ∧
    (handleGetAccountByID S (ResponseWriter.forRequest r) r s).store = s ∧
    (handleGetAccountByID countingStore (ResponseWriter.forRequest r) r n).store = n ∧
    (handleGetAccountByID S (ResponseWriter.forRequest r) r s).w.status = 200 ∧
    (handleGetAccountByID S (ResponseWriter.forRequest r) r s).w.body =
      [Json.obj [("id", .num 0), ("firstName", .str ""), ("lastName", .str ""),
                 ("number", .num 0), ("balance", .num 0), ("createdAt", .time Time.zero)]] ∧
    (handleGetAccountByID S (ResponseWriter.forRequest r) r s).w.wire =
      (if r.Method = "HEAD" then []
       else [Json.obj [("id", .num 0), ("firstName", .str ""), ("lastName", .str ""),
                 ("number", .num 0), ("balance", .num 0), ("createdAt", .time Time.zero)]]) ∧
    (Run env S Route.accountID (ResponseWriter.forRequest r) r s).1 =
      (handleGetAccountByID S (ResponseWriter.forRequest r) r s).w ∧
    (Run env S Route.accountID (ResponseWriter.forRequest r) r s).2 = s ∧
    ((r.Method = "HEAD" ↔ r2.Method = "HEAD") →
      (Run env S Route.accountID (ResponseWriter.forRequest r) r s).1 =
        (Run env T Route.accountID (ResponseWriter.forRequest r2) r2 t).1) := by
  rcases forRequest_cases r with ⟨hm, hw⟩ | ⟨hm, hw⟩
  · rw [hw]
    refine ⟨rfl, rfl, rfl, rfl, rfl, ?_, rfl, rfl, ?_⟩
    · rw [if_pos hm]; rfl
    · intro hiff
      rcases forRequest_cases r2 with ⟨_, hw2⟩ | ⟨hm2, _⟩
      · rw [hw2]; rfl
      · exact absurd (hiff.mp hm) hm2
  · rw [hw]
    refine ⟨rfl, rfl, rfl, rfl, rfl, ?_, rfl, rfl, ?_⟩
    · rw [if_neg hm]; rfl
    · intro hiff
      rcases forRequest_cases r2 with ⟨hm2, _⟩ | ⟨_, hw2⟩
      · exact absurd (hiff.mpr hm2) hm
      · rw [hw2]; rfl

theorem handleGetAccountByID_response_witness :
    (Run sampleEnv (postgresStore memDB) Route.accountID
        (ResponseWriter.forRequest firstRequest) firstRequest memEmpty).1 =
      (Run sampleEnv countingStore Route.accountID
        (ResponseWriter.forRequest missingRequest) missingRequest 7).1 :=
  (handleGetAccountByID_response sampleEnv (postgresStore memDB) countingStore
    firstRequest missingRequest memEmpty 7 0).2.2.2.2.2.2.2.2 (by decide)

end GoBank
